import Mathlib

/-!
Shallow embedding of `bentoml/frameworks/catboost.py`
(`CatboostModelArtifact`), a persistence adapter for CatBoost classifier
models.  Python mutation becomes explicit state passing: every operation
returns the value it would return (or the exception it would raise), the
adapter state after the call, and a log of the external effects it
performed (library calls that touch the filesystem, pip-package
declarations).  The availability of the `catboost` package — which the
Python code probes with `try: import catboost` — is an explicit Boolean
argument to the operations whose source contains such a probe (`pack`
and `load`); `save`, `get` and `set_dependencies` contain no import
statement in the source and hence take no such argument.
-/

/-- State of an in-memory `catboost.core.CatBoostClassifier` object.
`fresh` is the result of the nullary constructor `CatBoostClassifier()`;
`loadedFrom f fmt` is a classifier after `clf.load_model(f, fmt)`;
`trained id` stands for an arbitrary externally trained classifier,
distinguished by an abstract identity tag. -/
inductive ClassifierState where
  | fresh : ClassifierState
  | loadedFrom (file : String) (fmt : String) : ClassifierState
  | trained (id : Nat) : ClassifierState
deriving DecidableEq, Repr

/-- `clf.load_model(file, fmt)`: the catboost library replaces the
classifier content with the model read from `file` in format `fmt`. -/
def ClassifierState.load_model (_clf : ClassifierState) (file fmt : String) :
    ClassifierState :=
  ClassifierState.loadedFrom file fmt

/-- A Python value as it may be passed to `pack`: `pyNone` is `None`,
`classifier s` is an instance of `catboost.core.CatBoostClassifier`,
`other tag` is any object of a different type. -/
inductive PyVal where
  | pyNone : PyVal
  | classifier (s : ClassifierState) : PyVal
  | other (tag : Nat) : PyVal
deriving DecidableEq, Repr

/-- `isinstance(model, catboost.core.CatBoostClassifier)`. -/
def isCatBoostClassifier : PyVal → Bool
  | PyVal.classifier _ => true
  | _ => false

/-- Extract the classifier state from a value that is an instance of
`catboost.core.CatBoostClassifier`; `none` for any other value. -/
def PyVal.asClassifier : PyVal → Option ClassifierState
  | PyVal.classifier s => some s
  | _ => none

/-- Exceptions the adapter's operations can raise:
`MissingDependencyException`, `InvalidArgument` (both from
`bentoml.exceptions`) and Python's built-in `AttributeError`. -/
inductive PyError where
  | missingDependency (msg : String) : PyError
  | invalidArgument (msg : String) : PyError
  | attributeError (msg : String) : PyError
deriving DecidableEq, Repr

/-- External effects an operation performs: a catboost `load_model` call
(reads the given file), a catboost `save_model` call (writes the given
file), and `env.add_pip_packages` (records package names in the hosting
environment object). -/
inductive Effect where
  | libLoadModel (file : String) (fmt : String) : Effect
  | libSaveModel (file : String) (fmt : String) : Effect
  | addPipPackages (pkgs : List String) : Effect
deriving DecidableEq, Repr

/-- Whether an effect writes to the filesystem: only the library's
`save_model` call does (`load_model` reads; `add_pip_packages` appends
to an in-memory list of the environment object). -/
def Effect.writesFs : Effect → Bool
  | Effect.libSaveModel _ _ => true
  | _ => false

/-- The file a library call touches, if any. -/
def Effect.file : Effect → Option String
  | Effect.libLoadModel f _ => some f
  | Effect.libSaveModel f _ => some f
  | _ => none

/-- `os.path.join` (POSIX) restricted to two components, as the adapter
uses it: an absolute second component (one starting with the separator
character) replaces the first; otherwise the components are joined,
inserting `/` unless the first is empty or already ends with the
separator.  The separator tests are on single characters (`sep = '/'`),
exactly as in the CPython implementation of `posixpath.join`. -/
def os_path_join (a b : String) : String :=
  if b.data.head? = some '/' then b
  else if a = "" ∨ a.data.getLast? = some '/' then a ++ b
  else a ++ "/" ++ b

/-- The adapter state: `name` (held by the `BentoServiceArtifact` base
class), the `_model_extension` string and the held `_model` reference
(`None` or a classifier instance). -/
structure CatboostModelArtifact where
  name : String
  _model_extension : String
  _model : Option ClassifierState
deriving DecidableEq, Repr

/-- Result of invoking one operation: the value returned (`Except.ok`)
or the exception raised (`Except.error`), the adapter state after the
call, and the external effects performed, in order. -/
structure OpResult (α : Type) where
  ret : Except PyError α
  state : CatboostModelArtifact
  effects : List Effect
deriving Repr

/-- `CatboostModelArtifact.__init__(name, model_extension)`:
stores the extension and initialises `_model` to `None`. -/
def CatboostModelArtifact.init (name model_extension : String) :
    CatboostModelArtifact :=
  { name := name, _model_extension := model_extension, _model := none }

/-- Construction without an explicit extension: the Python signature's
default is `model_extension=".json"`. -/
def CatboostModelArtifact.initDefault (name : String) :
    CatboostModelArtifact :=
  CatboostModelArtifact.init name ".json"

/-- The message of the `MissingDependencyException` raised by `pack` and
`load`. -/
def missingDepMsg : String :=
  "catboost package is required to use CatboostModelArtifact"

/-- The message of the `InvalidArgument` raised by `pack`. -/
def invalidArgMsg : String :=
  "Expect `model` argument to be a `catboost.core.CatBoostClassifier` instance"

/-- The message of the `AttributeError` raised when `save` dereferences
`self._model` while it is `None`. -/
def attributeErrMsg : String :=
  "NoneType object has no attribute save_model"

/-- `self._model_file_path(base_path)`:
`os.path.join(base_path, self.name + self._model_extension)`. -/
def CatboostModelArtifact._model_file_path (self : CatboostModelArtifact)
    (base_path : String) : String :=
  os_path_join base_path (self.name ++ self._model_extension)

/-- `pack(self, model)`: raises `MissingDependencyException` if the
`catboost` import fails; raises `InvalidArgument` if `model` is not an
instance of `catboost.core.CatBoostClassifier`; otherwise assigns
`self._model = model` and returns `self`. -/
def CatboostModelArtifact.pack (self : CatboostModelArtifact)
    (catboostAvailable : Bool) (model : PyVal) :
    OpResult CatboostModelArtifact :=
  if !catboostAvailable then
    ⟨Except.error (PyError.missingDependency missingDepMsg), self, []⟩
  else
    match model.asClassifier with
    | none =>
        ⟨Except.error (PyError.invalidArgument invalidArgMsg), self, []⟩
    | some s =>
        let self2 := { self with _model := some s }
        ⟨Except.ok self2, self2, []⟩

/-- `load(self, path)`: raises `MissingDependencyException` if the
`catboost` import fails; otherwise builds `clf = CatBoostClassifier()`,
calls `clf.load_model(self._model_file_path(path), "json")` and returns
`self.pack(clf)`. -/
def CatboostModelArtifact.load (self : CatboostModelArtifact)
    (catboostAvailable : Bool) (path : String) :
    OpResult CatboostModelArtifact :=
  if !catboostAvailable then
    ⟨Except.error (PyError.missingDependency missingDepMsg), self, []⟩
  else
    let clf := ClassifierState.fresh
    let file := self._model_file_path path
    let clf2 := clf.load_model file "json"
    let r := self.pack catboostAvailable (PyVal.classifier clf2)
    ⟨r.ret, r.state, Effect.libLoadModel file "json" :: r.effects⟩

/-- `save(self, dst)`:
`return self._model.save_model(self._model_file_path(dst), format="json")`.
No import probe and no type check: if `self._model` is `None`,
dereferencing it raises `AttributeError`; otherwise the library's
`save_model` writes the file and returns `None`. -/
def CatboostModelArtifact.save (self : CatboostModelArtifact)
    (dst : String) : OpResult Unit :=
  match self._model with
  | none =>
      ⟨Except.error (PyError.attributeError attributeErrMsg), self, []⟩
  | some _ =>
      ⟨Except.ok (), self,
        [Effect.libSaveModel (self._model_file_path dst) "json"]⟩

/-- `get(self)`: `return self._model`. -/
def CatboostModelArtifact.get (self : CatboostModelArtifact) :
    OpResult (Option ClassifierState) :=
  ⟨Except.ok self._model, self, []⟩

/-- `set_dependencies(self, env)`: `env.add_pip_packages(['catboost'])`. -/
def CatboostModelArtifact.set_dependencies (self : CatboostModelArtifact) :
    OpResult Unit :=
  ⟨Except.ok (), self, [Effect.addPipPackages ["catboost"]]⟩

/-- Whether an operation outcome is a raised `MissingDependencyException`. -/
def isMissingDependencyError {α : Type} : Except PyError α → Bool
  | Except.error (PyError.missingDependency _) => true
  | _ => false

/-- Whether an operation outcome is a raised `InvalidArgument`. -/
def isInvalidArgumentError {α : Type} : Except PyError α → Bool
  | Except.error (PyError.invalidArgument _) => true
  | _ => false

/-- C1 (counterexample): the claim that every operation raises the
missing-dependency condition when the catboost library is unavailable is
false at `get`: on the adapter `initDefault "model"`, `get` — whose
source contains no import probe, so its behaviour is independent of the
library's availability — raises nothing and returns the held reference
(`None`), performing no effects. -/
theorem catboost_C1_counterexample :
    isMissingDependencyError (CatboostModelArtifact.initDefault "model").get.ret
      = false ∧
    (CatboostModelArtifact.initDefault "model").get.ret = Except.ok none ∧
    (CatboostModelArtifact.initDefault "model").get.effects = [] := by
  exact ⟨rfl, rfl, rfl⟩

/-- C1 (amended): only `pack` and `load` probe for the catboost library:
when it is unavailable they raise the missing-dependency condition,
leave the adapter state unchanged and perform no effects (hence no
filesystem writes); `get`, `save` and `set_dependencies` perform no
availability check and never raise the missing-dependency condition. -/
theorem catboost_C1_amended (a : CatboostModelArtifact) (model : PyVal)
    (path dst : String) :
    (a.pack false model).ret
      = Except.error (PyError.missingDependency missingDepMsg) ∧
    (a.pack false model).state = a ∧
    (a.pack false model).effects = [] ∧
    (a.load false path).ret
      = Except.error (PyError.missingDependency missingDepMsg) ∧
    (a.load false path).state = a ∧
    (a.load false path).effects = [] ∧
    isMissingDependencyError a.get.ret = false ∧
    isMissingDependencyError a.set_dependencies.ret = false ∧
    isMissingDependencyError (a.save dst).ret = false := by
  refine ⟨rfl, rfl, rfl, rfl, rfl, rfl, rfl, rfl, ?_⟩
  cases h : a._model <;>
    simp [CatboostModelArtifact.save, h, isMissingDependencyError]

/-- C2: packing a value that is not a `catboost.core.CatBoostClassifier`
instance (with the library available) raises the invalid-argument
condition, and the adapter state — in particular the held `_model`
reference — is unchanged; no effects are performed. -/
theorem catboost_C2 (a : CatboostModelArtifact) (model : PyVal)
    (h : isCatBoostClassifier model = false) :
    (a.pack true model).ret
      = Except.error (PyError.invalidArgument invalidArgMsg) ∧
    (a.pack true model).state = a ∧
    (a.pack true model).state._model = a._model ∧
    (a.pack true model).effects = [] := by
  cases model with
  | pyNone => exact ⟨rfl, rfl, rfl, rfl⟩
  | classifier s => simp [isCatBoostClassifier] at h
  | other tag => exact ⟨rfl, rfl, rfl, rfl⟩

/-- C2 (witness): instantiated at a wrongly-typed value `other 0`. -/
theorem catboost_C2_witness :
    isCatBoostClassifier (PyVal.other 0) = false ∧
    ((CatboostModelArtifact.initDefault "model").pack true (PyVal.other 0)).ret
      = Except.error (PyError.invalidArgument invalidArgMsg) := by
  exact ⟨rfl,
    (catboost_C2 (CatboostModelArtifact.initDefault "model") (PyVal.other 0)
      rfl).1⟩

/-- C3: packing a `catboost.core.CatBoostClassifier` instance succeeds,
returns the adapter itself (the returned value is exactly the post-call
adapter state), and a subsequent `get()` returns the very object that
was packed; pack performs no effects. -/
theorem catboost_C3 (a : CatboostModelArtifact) (s : ClassifierState) :
    (a.pack true (PyVal.classifier s)).ret
      = Except.ok (a.pack true (PyVal.classifier s)).state ∧
    (a.pack true (PyVal.classifier s)).state._model = some s ∧
    (a.pack true (PyVal.classifier s)).state.get.ret = Except.ok (some s) ∧
    (a.pack true (PyVal.classifier s)).effects = [] := by
  exact ⟨rfl, rfl, rfl, rfl⟩

/-- C4: `load` always passes the literal format `"json"` to the
library's `load_model`, whatever the adapter's `_model_extension` is
(the extension influences only the file path inside the effect). -/
theorem catboost_C4 (a : CatboostModelArtifact) (path : String) :
    (a.load true path).effects
      = [Effect.libLoadModel (a._model_file_path path) "json"] := by
  rfl

/-- C5: for the same artifact name, extension and base directory, the
file path touched by `save` (its `save_model` call) and the file path
touched by `load` (its `load_model` call) are identical, namely
`os_path_join base (name ++ ext)`. -/
theorem catboost_C5 (name ext base : String) (s : ClassifierState)
    (m : Option ClassifierState) :
    ((CatboostModelArtifact.mk name ext (some s)).save base).effects.filterMap
        Effect.file
      = ((CatboostModelArtifact.mk name ext m).load true base).effects.filterMap
        Effect.file ∧
    ((CatboostModelArtifact.mk name ext (some s)).save base).effects.filterMap
        Effect.file
      = [os_path_join base (name ++ ext)] := by
  exact ⟨rfl, rfl⟩

/-- C6: the adapter's file path is `os.path.join(base, name + ext)`; in
particular, whenever the base path is non-empty, does not end in `/`,
and `name ++ ext` is not absolute, it is literally
`base ++ "/" ++ (name ++ ext)`; and an adapter constructed without an
explicit extension gets the default extension `".json"`. -/
theorem catboost_C6 (base name ext : String) :
    (CatboostModelArtifact.initDefault name)._model_extension = ".json" ∧
    (CatboostModelArtifact.init name ext)._model_file_path base
      = os_path_join base (name ++ ext) ∧
    (base ≠ "" → base.data.getLast? ≠ some '/' →
      (name ++ ext).data.head? ≠ some '/' →
      (CatboostModelArtifact.init name ext)._model_file_path base
        = base ++ "/" ++ (name ++ ext)) := by
  refine ⟨rfl, rfl, ?_⟩
  intro h1 h2 h3
  show os_path_join base (name ++ ext) = base ++ "/" ++ (name ++ ext)
  unfold os_path_join
  rw [if_neg h3, if_neg (not_or.mpr ⟨h1, h2⟩)]

/-- C6 (witness): instantiated at base `"/bundle"`, name `"model"`,
extension `".json"`. -/
theorem catboost_C6_witness :
    ("/bundle" : String) ≠ "" ∧
    (CatboostModelArtifact.init "model" ".json")._model_file_path "/bundle"
      = "/bundle" ++ "/" ++ ("model" ++ ".json") := by
  exact ⟨by decide,
    (catboost_C6 "/bundle" "model" ".json").2.2 (by decide) (by decide)
      (by decide)⟩

/-- C7: with the library available, `load path` performs exactly one
library call, `load_model` on the deterministic path
`os_path_join path (name ++ ext)`; its returned value and its post-call
state are those of delegating to `pack` on a fresh classifier that was
loaded from that path; afterwards the adapter holds that freshly loaded
classifier. -/
theorem catboost_C7 (a : CatboostModelArtifact) (path : String) :
    a._model_file_path path
      = os_path_join path (a.name ++ a._model_extension) ∧
    (a.load true path).effects
      = [Effect.libLoadModel (a._model_file_path path) "json"] ∧
    (a.load true path).ret
      = (a.pack true (PyVal.classifier
          (ClassifierState.fresh.load_model (a._model_file_path path)
            "json"))).ret ∧
    (a.load true path).state
      = (a.pack true (PyVal.classifier
          (ClassifierState.fresh.load_model (a._model_file_path path)
            "json"))).state ∧
    (a.load true path).state._model
      = some (ClassifierState.loadedFrom (a._model_file_path path) "json") := by
  exact ⟨rfl, rfl, rfl, rfl, rfl⟩

/-- C8: `get` returns the held reference (`None` when none has been
packed), and has no side effects: the post-call name, extension and
held reference all equal the pre-call ones and the effect log is
empty. -/
theorem catboost_C8 (a : CatboostModelArtifact) :
    a.get.ret = Except.ok a._model ∧
    a.get.state.name = a.name ∧
    a.get.state._model_extension = a._model_extension ∧
    a.get.state._model = a._model ∧
    a.get.effects = [] := by
  exact ⟨rfl, rfl, rfl, rfl, rfl⟩

/-- C9: `save` on an adapter holding no model reference raises an
attribute error from dereferencing `None` — neither the
missing-dependency nor the invalid-argument condition — leaves the
state unchanged and performs no effects (so writes nothing). -/
theorem catboost_C9 (a : CatboostModelArtifact) (dst : String)
    (h : a._model = none) :
    (a.save dst).ret = Except.error (PyError.attributeError attributeErrMsg) ∧
    isMissingDependencyError (a.save dst).ret = false ∧
    isInvalidArgumentError (a.save dst).ret = false ∧
    (a.save dst).effects = [] ∧
    (a.save dst).state = a := by
  simp [CatboostModelArtifact.save, h, isMissingDependencyError,
    isInvalidArgumentError]

/-- C9 (witness): instantiated at a freshly constructed adapter, which
holds no model. -/
theorem catboost_C9_witness :
    (CatboostModelArtifact.initDefault "model")._model = none ∧
    ((CatboostModelArtifact.initDefault "model").save "/bundle").ret
      = Except.error (PyError.attributeError attributeErrMsg) := by
  exact ⟨rfl,
    (catboost_C9 (CatboostModelArtifact.initDefault "model") "/bundle"
      rfl).1⟩

/-- C10: in `pack` the dependency probe precedes the type check: with
the library unavailable, `pack` raises the missing-dependency condition
for every argument, wrongly typed or not; and the invalid-argument
condition is raised exactly when the library is available and the
argument is not a classifier instance — hence only when the library is
importable. -/
theorem catboost_C10 (a : CatboostModelArtifact) (model : PyVal)
    (avail : Bool) :
    (a.pack false model).ret
      = Except.error (PyError.missingDependency missingDepMsg) ∧
    isInvalidArgumentError (a.pack avail model).ret
      = (avail && !(isCatBoostClassifier model)) := by
  refine ⟨rfl, ?_⟩
  cases avail <;> cases model <;> rfl
